import Mathlib

/-!
Verification of the RAG-on-text-book repository: a shallow embedding of the
MCQ evaluator (`src/eval/evaluator/__init__.py`), the multiple-choice
evaluation pipeline (`src/eval/eval_pipeline/multiple_choice_eval.py`), the
multiple-choice prompt wrapper (`src/eval/eval_wrapper/multiple_choice_wrapper.py`),
the dataset loader (`src/utils/eval.py`) and the RAG backend constructors
(`src/rag/base_rag.py`), together with theorems settling the specification's
claims about them.

Conventions of the embedding:
* Python `None`-able arguments become `Option`.
* Code that can raise a Python exception returns `Except String α`; the
  `String` carries `str(e)` of the exception.
* Python `float` scores (only ever `0.0` and `1.0` here) become `Rat`.
* Python string truthiness (`if s:`) is `¬ s.isEmpty` on a present string.
-/

namespace RAGTextBook

/-- Embeds llama_index's `EvaluationResult` (only the fields this repository
reads and writes: `query`, `response`, `score`, `feedback`, `passing`). -/
structure EvaluationResult where
  query : String
  response : String
  score : Rat
  feedback : String
  passing : Bool
deriving Repr, DecidableEq

namespace MCQEvaluator

/-- Python truthiness of an `Optional[str]`: `None` and `""` are falsy. -/
def strTruthy : Option String → Bool
  | none => false
  | some s => !s.isEmpty

/-- Python truthiness of an `Optional[List[str]]`: `None` and `[]` are falsy. -/
def listTruthy : Option (List String) → Bool
  | none => false
  | some l => !l.isEmpty

/-- `possible_answers` as built in `MCQEvaluator.evaluate`: start empty,
append `reference_answer` when truthy, extend with `reference_answers`
when truthy. -/
def possibleAnswers (reference_answer : Option String)
    (reference_answers : Option (List String)) : List String :=
  (if strTruthy reference_answer then [reference_answer.getD ""] else [])
    ++ (if listTruthy reference_answers then reference_answers.getD [] else [])

/-- Embeds `MCQEvaluator.evaluate` from `src/eval/evaluator/__init__.py`.

The source:
1. `response is None` → non-passing result "No response to evaluate.";
2. `reference_answer is None and reference_answers is None` → non-passing
   result "No reference answer(s) provided for evaluation.";
3. otherwise `model_response_as_is = response[0].upper()` — indexing an
   empty string raises `IndexError("string index out of range")`, embedded
   as `Except.error`;
4. strict membership of that one-character string in `possible_answers`. -/
def evaluate (query : String) (response : Option String)
    (reference_answer : Option String := none)
    (reference_answers : Option (List String) := none) :
    Except String EvaluationResult :=
  match response with
  | none =>
    .ok { query := query
          response := "No response provided."
          score := 0
          feedback := "No response to evaluate."
          passing := false }
  | some resp =>
    if reference_answer = none ∧ reference_answers = none then
      .ok { query := query
            response := resp
            score := 0
            feedback := "No reference answer(s) provided for evaluation."
            passing := false }
    else
      match resp.data with
      | [] => .error "string index out of range"
      | c :: _ =>
        let model_response_as_is : String := c.toUpper.toString
        let pa := possibleAnswers reference_answer reference_answers
        let is_exact_match : Bool := pa.contains model_response_as_is
        let score : Rat := if is_exact_match then 1 else 0
        let matched : String :=
          if is_exact_match then "strictly matched" else "did not strictly match"
        .ok { query := query
              response := resp
              score := score
              feedback := "Response '" ++ model_response_as_is ++ "' " ++ matched
                ++ " one of the expected options: " ++ toString pa.dedup
              passing := is_exact_match }

end MCQEvaluator

/-- A multiple-choice item of a dataset file: `{"question": ..., "answer": ...}`. -/
structure QAItem where
  question : String
  answer : String
deriving Repr, DecidableEq

/-- A per-item result dictionary as built in
`MultipleChoiceEvaluationPipeline.evaluate_dataset`. -/
structure ResultRecord where
  question_id : Nat
  question : String
  correct_answer : String
  rag_response : String
  is_correct : Bool
  score : Rat
  feedback : String
deriving Repr, DecidableEq

/-- The `metrics` dictionary returned by `evaluate_dataset`. -/
structure EvalMetrics where
  total_questions : Nat
  correct_answers : Nat
  accuracy : Rat
  grade : String
  subject : Option String
  rag_system : String
deriving Repr, DecidableEq

namespace MultipleChoiceEvaluationPipeline

/-- The failing record built in the `except` branch of the per-item loop:
`rag_response = "ERROR"`, `is_correct = False`, `score = 0.0`,
`feedback = f"Error: \x7be\x7d"`. -/
def mkErrorRecord (i : Nat) (qa : QAItem) (e : String) : ResultRecord :=
  { question_id := i
    question := qa.question
    correct_answer := qa.answer
    rag_response := "ERROR"
    is_correct := false
    score := 0
    feedback := "Error: " ++ e }

/-- One iteration of the per-item loop. The `try` block covers both the
backend's `get_answer` and the evaluator call, so an exception from either
(embedded as `Except.error`) yields the error record. `get_answer` is the
RAG system's method, embedded as a function `String → Except String String`. -/
def processItem (get_answer : String → Except String String)
    (i : Nat) (qa : QAItem) : ResultRecord :=
  match get_answer qa.question with
  | .error e => mkErrorRecord i qa e
  | .ok rag_response =>
    match MCQEvaluator.evaluate qa.question (some rag_response) (some qa.answer) none with
    | .error e => mkErrorRecord i qa e
    | .ok eval_result =>
      { question_id := i
        question := qa.question
        correct_answer := qa.answer
        rag_response := rag_response
        is_correct := eval_result.passing
        score := eval_result.score
        feedback := eval_result.feedback }

/-- The `for i, qa_pair in enumerate(dataset)` loop: appends one record per
item (starting at index `i`) and counts the items whose `eval_result.passing`
held (the error branch never increments the counter, and its record has
`is_correct = false`). -/
def evalLoop (get_answer : String → Except String String) :
    Nat → List QAItem → List ResultRecord × Nat
  | _, [] => ([], 0)
  | i, qa :: rest =>
    let record := processItem get_answer i qa
    let recur := evalLoop get_answer (i + 1) rest
    (record :: recur.1, (if record.is_correct then 1 else 0) + recur.2)

/-- The truncation step `if max_questions: dataset = dataset[:max_questions]`.
Python truthiness: `None` and `0` leave the dataset untouched
(`max_questions` is embedded as a natural number). -/
def truncate (dataset : List QAItem) (max_questions : Option Nat) : List QAItem :=
  match max_questions with
  | none => dataset
  | some m => if m = 0 then dataset else dataset.take m

/-- Embeds `MultipleChoiceEvaluationPipeline.evaluate_dataset`.

Dataset loading (`load_eval_dataset` / `load_eval_dataset_by_grade`) is file
I/O; the loaded dataset is passed in as input. `self.results` — the list the
constructor initialises to `[]` and every run appends to — is passed in as
`results₀` and the updated list is returned: the Python method returns
`{"metrics": metrics, "results": self.results}`, so the second component is
both the returned `results` sequence and the instance state after the call. -/
def evaluate_dataset (get_answer : String → Except String String)
    (rag_system_name : String) (results₀ : List ResultRecord)
    (dataset : List QAItem) (grade : String) (subject : Option String)
    (max_questions : Option Nat) : EvalMetrics × List ResultRecord :=
  let dataset := truncate dataset max_questions
  let total_count := dataset.length
  let (records, correct_count) := evalLoop get_answer 0 dataset
  let results := results₀ ++ records
  let accuracy : Rat :=
    if total_count > 0 then (correct_count : Rat) / (total_count : Rat) else 0
  ({ total_questions := total_count
     correct_answers := correct_count
     accuracy := accuracy
     grade := grade
     subject := subject
     rag_system := rag_system_name },
   results)

end MultipleChoiceEvaluationPipeline

namespace MultipleChoiceWrapper

/-- The constrained-instruction prompt built by
`MultipleChoiceWrapper.get_answer` around the raw question (an f-string in a
triple-quoted literal; the surrounding newlines and indentation are part of
the string). -/
def wrapPrompt (question : String) : String :=
  "\n            Hãy chỉ trả lời câu hỏi Multiple choice sau bằng một trong các đáp án A, B, C, D.   \n            Câu hỏi: "
    ++ question ++ "\n            Đáp án:\n        "

/-- Embeds `MultipleChoiceWrapper.get_answer`: wrap the question in the
multiple-choice prompt, then delegate to the underlying RAG's `get_answer`. -/
def get_answer (rag_get_answer : String → Except String String)
    (question : String) : Except String String :=
  rag_get_answer (wrapPrompt question)

end MultipleChoiceWrapper

namespace UtilsEval

/-- Embeds `load_eval_dataset` from `src/utils/eval.py`. The filesystem is
a function from path to parsed JSON content (`Except` for a missing or
malformed file). The body immediately rebinds `dataset_path` to the
hard-coded per-grade/per-subject path before opening it. -/
def load_eval_dataset (fs : String → Except String (List QAItem))
    (dataset_path : String) (grade : String) (subject : String) :
    Except String (List QAItem) :=
  let dataset_path := "src/eval/data/" ++ grade ++ "/" ++ subject ++ "/dataset.json"
  fs dataset_path

end UtilsEval

/-- Instance attributes of a `LocalRAG` object relevant to
`get_query_engine`; `none` models an attribute that `__init__` has not yet
assigned (reading it raises `AttributeError`). -/
structure LocalRAGAttrs where
  storage_dir : Option String
  data_dir : Option String
deriving Repr, DecidableEq

/-- A fully constructed `LocalRAG` object (as `LocalRAG.__init__` would leave
it if it completed). `Engine` abstracts llama_index's query-engine objects. -/
structure LocalRAGObj (Engine : Type) where
  llm : String
  query_engine : Engine
  storage_dir : String
  data_dir : String

namespace LocalRAG

/-- Embeds `LocalRAG.get_query_engine`: check `os.path.exists(self.storage_dir)`
and either load the persisted index or build one from `self.data_dir`
(loading, reading and persisting are external llama_index calls, abstracted
as `load_index` and `build_index`). Reading an unassigned attribute raises
`AttributeError`; `self.storage_dir` is read first. -/
def get_query_engine {Engine : Type} (attrs : LocalRAGAttrs)
    (path_exists : String → Bool)
    (load_index : String → Engine) (build_index : String → Engine) :
    Except String Engine :=
  match attrs.storage_dir with
  | none => .error "'LocalRAG' object has no attribute 'storage_dir'"
  | some sd =>
    if path_exists sd then
      .ok (load_index sd)
    else
      match attrs.data_dir with
      | none => .error "'LocalRAG' object has no attribute 'data_dir'"
      | some dd => .ok (build_index dd)

/-- Embeds `LocalRAG.__init__(storage_dir, data_dir)` (inherited unchanged by
`LocalBaselineRAG`). The source calls `super().__init__()` — which runs
`self.get_llm()` and then `self.get_query_engine()` — *before* assigning
`self.storage_dir` and `self.data_dir`, so `get_query_engine` executes with
both attributes unassigned. -/
def construct {Engine : Type} (path_exists : String → Bool)
    (load_index : String → Engine) (build_index : String → Engine)
    (storage_dir : String) (data_dir : String) :
    Except String (LocalRAGObj Engine) := do
  let llm := "gpt-4o-mini"
  let qe ← get_query_engine
    { storage_dir := none, data_dir := none } path_exists load_index build_index
  .ok { llm := llm, query_engine := qe
        storage_dir := storage_dir, data_dir := data_dir }

end LocalRAG

namespace LocalSubQuestionRAG

/-- Embeds `LocalSubQuestionRAG.get_query_engine`: it reads
`self.query_engine` to build the `QueryEngineTool` — during
`BaseRAG.__init__` that attribute is still being computed, so the read
raises `AttributeError`. (Were the attribute present, the method would
assign the `SubQuestionQueryEngine` to `self.query_engine` and fall off the
end, returning `None`; `mk_sub_question_engine` abstracts the llama_index
construction.) -/
def get_query_engine {Engine : Type} (query_engine_attr : Option Engine)
    (mk_sub_question_engine : Engine → Engine) :
    Except String (Option Engine × Option Engine) :=
  match query_engine_attr with
  | none => .error "'LocalSubQuestionRAG' object has no attribute 'query_engine'"
  | some qe => .ok (some (mk_sub_question_engine qe), none)

/-- Embeds constructing a `LocalSubQuestionRAG`: `LocalRAG.__init__` runs
`super().__init__()` first, whose `self.get_query_engine()` dispatches to
`LocalSubQuestionRAG.get_query_engine` with `self.query_engine` unassigned. -/
def construct {Engine : Type} (mk_sub_question_engine : Engine → Engine)
    (storage_dir : String) (data_dir : String) :
    Except String (LocalRAGObj (Option Engine)) := do
  let llm := "gpt-4o-mini"
  let r ← get_query_engine (none : Option Engine) mk_sub_question_engine
  .ok { llm := llm, query_engine := r.2
        storage_dir := storage_dir, data_dir := data_dir }

end LocalSubQuestionRAG

/-- A backend whose `get_answer` always succeeds with the letter `"A"`
(used to run the pipeline embedding on concrete inputs). -/
def constAnswerA : String → Except String String := fun _ => .ok "A"

/-- A backend whose `get_answer` always raises, with message `"boom"`
(used to run the pipeline embedding on concrete failing inputs). -/
def alwaysFailBackend : String → Except String String := fun _ => .error "boom"

/-! ## Theorems -/

/-- A one-character Python string is truthy: `Char.toString` is never empty. -/
theorem char_toString_not_isEmpty (a : Char) : (Char.toString a).isEmpty = false := by
  rw [Bool.eq_false_iff]
  intro h
  have h2 : Char.toString a = "" := (String.isEmpty_iff (Char.toString a)).mp h
  have h3 : [a] = ([] : List Char) := congrArg String.data h2
  exact List.cons_ne_nil a [] h3

/-- With a single truthy `reference_answer` and no `reference_answers`,
`possible_answers` is the one-element list. -/
theorem possibleAnswers_single (X : Char) :
    MCQEvaluator.possibleAnswers (some (Char.toString X)) none = [Char.toString X] := by
  simp [MCQEvaluator.possibleAnswers, MCQEvaluator.strTruthy, MCQEvaluator.listTruthy,
    char_toString_not_isEmpty]

/-- `Char.toString` is injective. -/
theorem char_toString_injective (a b : Char) (h : Char.toString a = Char.toString b) :
    a = b := by
  have h2 : [a] = [b] := congrArg String.data h
  exact List.head_eq_of_cons_eq h2

/-- C7: when neither `reference_answer` nor `reference_answers` is supplied,
the MCQ evaluator returns (does not raise) a valid non-passing result with
score 0 and passing false, for every query and every response (present or
absent). -/
theorem mcq_evaluate_no_reference_non_passing (q : String) (resp : Option String) :
    ∃ er, MCQEvaluator.evaluate q resp none none = .ok er
      ∧ er.score = 0 ∧ er.passing = false := by
  cases resp with
  | none => exact ⟨_, rfl, rfl, rfl⟩
  | some r => exact ⟨_, rfl, rfl, rfl⟩

/-- C2 counterexample: contrary to the claim, `evaluate(q, "", reference_answer="A")`
does not return a score-0 result — it raises `IndexError` (the source only
guards `response is None`, then evaluates `response[0]` on the empty string). -/
theorem mcq_evaluate_empty_response_raises :
    MCQEvaluator.evaluate "q" (some "") (some "A") none
      = .error "string index out of range" := rfl

/-- C2 amended: an absent (`None`) response yields score 0, passing false and
the "No response to evaluate." feedback, for every query and references; an
empty-string response with a reference answer supplied makes the evaluator
raise `IndexError("string index out of range")` instead of returning. -/
theorem mcq_evaluate_absent_vs_empty_response :
    (∀ (q : String) (ra : Option String) (ras : Option (List String)),
        MCQEvaluator.evaluate q none ra ras
          = .ok { query := q, response := "No response provided.", score := 0,
                  feedback := "No response to evaluate.", passing := false })
    ∧ (∀ (q X : String),
        MCQEvaluator.evaluate q (some "") (some X) none
          = .error "string index out of range") :=
  ⟨fun _ _ _ => rfl, fun _ _ => rfl⟩

/-- C3: with a non-empty response whose first character is `c` and a single
uppercase reference letter `X`, the evaluator returns a result that passes
iff `c.toUpper = X`; the score is 1 exactly when it passes and 0 otherwise;
and the verdict depends only on the upper-cased first character — any
response with the same upper-cased first character (any case, any tail)
gets the same verdict. -/
theorem mcq_evaluate_first_letter_iff (q r : String) (X c : Char) (cs : List Char)
    (hr : r.data = c :: cs) (hX : X.isUpper = true) :
    ∃ er, MCQEvaluator.evaluate q (some r) (some (Char.toString X)) none = .ok er
      ∧ (er.passing = true ↔ c.toUpper = X)
      ∧ er.score = (if er.passing then (1 : Rat) else 0)
      ∧ (∀ (s : String) (d : Char) (ds : List Char), s.data = d :: ds →
          d.toUpper = c.toUpper →
          ∀ er₂, MCQEvaluator.evaluate q (some s) (some (Char.toString X)) none = .ok er₂ →
            er₂.passing = er.passing) := by
  obtain ⟨rdata⟩ := r
  have hrd : rdata = c :: cs := hr
  subst hrd
  refine ⟨_, rfl, ?_, ?_, ?_⟩
  · show ((MCQEvaluator.possibleAnswers (some (Char.toString X)) none).contains
        (Char.toString (Char.toUpper c)) = true) ↔ c.toUpper = X
    rw [possibleAnswers_single]
    simp only [List.contains_cons, List.contains_nil, Bool.or_false, beq_iff_eq]
    constructor
    · exact fun h => char_toString_injective _ _ h
    · exact fun h => congrArg Char.toString h
  · show (if (MCQEvaluator.possibleAnswers (some (Char.toString X)) none).contains
        (Char.toString (Char.toUpper c)) then (1 : Rat) else 0) = _
    rfl
  · intro s d ds hs hd er₂ h₂
    obtain ⟨sdata⟩ := s
    have hsd : sdata = d :: ds := hs
    subst hsd
    have h₃ := Except.ok.inj h₂
    rw [← h₃]
    show (MCQEvaluator.possibleAnswers (some (Char.toString X)) none).contains
        (Char.toString (Char.toUpper d)) = _
    rw [hd]

/-- C3 witness: the claim's own example — the response "a, because..." with
reference letter "A" — satisfies the hypotheses and passes. -/
theorem mcq_evaluate_first_letter_iff_witness :
    ("a, because...".data = 'a' :: ", because...".data ∧ ('A').isUpper = true)
    ∧ ∃ er, MCQEvaluator.evaluate "q" (some "a, because...") (some (Char.toString 'A')) none
        = .ok er ∧ er.passing = true := by
  refine ⟨⟨rfl, by decide⟩, ?_⟩
  obtain ⟨er, h1, h2, _, _⟩ :=
    mcq_evaluate_first_letter_iff "q" "a, because..." 'A' 'a' (", because...".data)
      rfl (by decide)
  exact ⟨er, h1, h2.mpr (by decide)⟩

namespace MultipleChoiceEvaluationPipeline

/-- The per-item loop appends exactly one record per item. -/
theorem evalLoop_length (ga : String → Except String String) :
    ∀ (i : Nat) (ds : List QAItem), ((evalLoop ga i ds).1).length = ds.length
  | _, [] => rfl
  | i, qa :: rest => by
    simp only [evalLoop, List.length_cons, evalLoop_length ga (i + 1) rest]

/-- The `j`-th record of the per-item loop started at index `i` is
`processItem` applied to the `j`-th item with question id `i + j`. -/
theorem evalLoop_getElem (ga : String → Except String String) :
    ∀ (i j : Nat) (ds : List QAItem),
      ((evalLoop ga i ds).1)[j]? = (ds[j]?).map (fun qa => processItem ga (i + j) qa)
  | _, _, [] => by simp [evalLoop]
  | i, 0, qa :: rest => by simp [evalLoop]
  | i, j + 1, qa :: rest => by
    simp only [evalLoop, List.getElem?_cons_succ, evalLoop_getElem ga (i + 1) j rest]
    have h : i + 1 + j = i + (j + 1) := by omega
    rw [h]

/-- Truncating the empty dataset gives the empty dataset for every
`max_questions`. -/
theorem truncate_nil (mq : Option Nat) : truncate [] mq = [] := by
  cases mq with
  | none => rfl
  | some m => cases m with
    | zero => rfl
    | succ k => rfl

/-- C1: if the backend's `get_answer` raises on the `j`-th item of the
(truncated) dataset, the run still records one result per item — the `j`-th
being the failing record with raw response "ERROR", `is_correct = false`,
score 0 and feedback "Error: <message>" — and `total_questions` equals the
full truncated dataset length. -/
theorem pipeline_isolates_item_failures
    (ga : String → Except String String) (name : String) (res₀ : List ResultRecord)
    (ds : List QAItem) (g : String) (s : Option String) (mq : Option Nat)
    (j : Nat) (qa : QAItem) (e : String)
    (hj : (truncate ds mq)[j]? = some qa)
    (he : ga qa.question = .error e) :
    (evaluate_dataset ga name res₀ ds g s mq).1.total_questions = (truncate ds mq).length
    ∧ (evaluate_dataset ga name res₀ ds g s mq).2.length
        = res₀.length + (truncate ds mq).length
    ∧ (evaluate_dataset ga name res₀ ds g s mq).2[res₀.length + j]?
        = some { question_id := j, question := qa.question, correct_answer := qa.answer,
                 rag_response := "ERROR", is_correct := false, score := 0,
                 feedback := "Error: " ++ e } := by
  refine ⟨rfl, ?_, ?_⟩
  · show (res₀ ++ (evalLoop ga 0 (truncate ds mq)).1).length = _
    rw [List.length_append, evalLoop_length]
  · show (res₀ ++ (evalLoop ga 0 (truncate ds mq)).1)[res₀.length + j]? = _
    rw [List.getElem?_append_right (Nat.le_add_right res₀.length j),
      Nat.add_sub_cancel_left, evalLoop_getElem]
    simp only [hj, Nat.zero_add]
    show some (processItem ga j qa) = _
    rw [show processItem ga j qa = mkErrorRecord j qa e by
      simp [processItem, he]]
    rfl

/-- C1 witness: a two-item dataset whose backend raises "boom" on every
question still yields `total_questions = 2`, two records, and the failing
record at position 1. -/
theorem pipeline_isolates_item_failures_witness :
    ((truncate [⟨"q1", "A"⟩, ⟨"q2", "B"⟩] none)[1]? = some ⟨"q2", "B"⟩
      ∧ alwaysFailBackend "q2" = .error "boom")
    ∧ (evaluate_dataset alwaysFailBackend "LocalBaselineRAG" [] [⟨"q1", "A"⟩, ⟨"q2", "B"⟩]
        "grade_10" none none).1.total_questions = 2
    ∧ (evaluate_dataset alwaysFailBackend "LocalBaselineRAG" [] [⟨"q1", "A"⟩, ⟨"q2", "B"⟩]
        "grade_10" none none).2.length = 2
    ∧ (evaluate_dataset alwaysFailBackend "LocalBaselineRAG" [] [⟨"q1", "A"⟩, ⟨"q2", "B"⟩]
        "grade_10" none none).2[1]?
        = some { question_id := 1, question := "q2", correct_answer := "B",
                 rag_response := "ERROR", is_correct := false, score := 0,
                 feedback := "Error: " ++ "boom" } := by
  have h := pipeline_isolates_item_failures alwaysFailBackend "LocalBaselineRAG" []
    [⟨"q1", "A"⟩, ⟨"q2", "B"⟩] "grade_10" none none 1 ⟨"q2", "B"⟩ "boom" rfl rfl
  exact ⟨⟨rfl, rfl⟩, h.1, h.2.1, h.2.2⟩

/-- C5 counterexample: the results sequence is not run-scoped — calling
`evaluate_dataset` a second time on the same instance (threading
`self.results` through) over a 1-item dataset returns a sequence of length
2, not 1. -/
theorem results_not_run_scoped :
    ¬ ((evaluate_dataset constAnswerA "LocalBaselineRAG"
          (evaluate_dataset constAnswerA "LocalBaselineRAG" [] [⟨"q", "A"⟩]
            "grade_10" none none).2
          [⟨"q", "A"⟩] "grade_10" none none).2.length = 1) := by
  intro hcontra
  have h : (evaluate_dataset constAnswerA "LocalBaselineRAG"
      (evaluate_dataset constAnswerA "LocalBaselineRAG" [] [⟨"q", "A"⟩]
        "grade_10" none none).2
      [⟨"q", "A"⟩] "grade_10" none none).2.length = 2 := rfl
  rw [h] at hcontra
  exact Nat.succ_ne_self 1 hcontra

/-- C5 amended: the results sequence is instance-scoped and accumulates —
each `evaluate_dataset` call returns the previously accumulated records
followed by exactly one new record per item of this run, in dataset order
(so its length is the run's item count only when the accumulated list was
empty). -/
theorem results_accumulate_per_instance
    (ga : String → Except String String) (name : String) (res₀ : List ResultRecord)
    (ds : List QAItem) (g : String) (s : Option String) (mq : Option Nat) :
    ∃ newRecs, (evaluate_dataset ga name res₀ ds g s mq).2 = res₀ ++ newRecs
      ∧ newRecs.length = (truncate ds mq).length
      ∧ ∀ j : Nat, newRecs[j]? = ((truncate ds mq)[j]?).map (fun qa => processItem ga j qa) := by
  refine ⟨(evalLoop ga 0 (truncate ds mq)).1, rfl, evalLoop_length ga 0 (truncate ds mq), ?_⟩
  intro j
  rw [evalLoop_getElem]
  simp only [Nat.zero_add]

/-- C6: the reported accuracy is `correct_answers / total_questions`, defined
as 0 when `total_questions` is 0 (in particular it is exactly 0 over an
empty dataset, with no division error), and the metrics carry the grade, the
subject (absent meaning all subjects combined) and the backend's name. -/
theorem metrics_accuracy_and_fields
    (ga : String → Except String String) (name : String) (res₀ : List ResultRecord)
    (ds : List QAItem) (g : String) (s : Option String) (mq : Option Nat) :
    (evaluate_dataset ga name res₀ ds g s mq).1.accuracy
      = (if (evaluate_dataset ga name res₀ ds g s mq).1.total_questions = 0 then 0
         else ((evaluate_dataset ga name res₀ ds g s mq).1.correct_answers : Rat)
           / ((evaluate_dataset ga name res₀ ds g s mq).1.total_questions : Rat))
    ∧ (evaluate_dataset ga name res₀ ds g s mq).1.grade = g
    ∧ (evaluate_dataset ga name res₀ ds g s mq).1.subject = s
    ∧ (evaluate_dataset ga name res₀ ds g s mq).1.rag_system = name
    ∧ (evaluate_dataset ga name res₀ [] g s mq).1.accuracy = 0 := by
  refine ⟨?_, rfl, rfl, rfl, ?_⟩
  · show (if (truncate ds mq).length > 0
        then ((evalLoop ga 0 (truncate ds mq)).2 : Rat) / ((truncate ds mq).length : Rat)
        else 0)
      = (if (truncate ds mq).length = 0 then 0
         else ((evalLoop ga 0 (truncate ds mq)).2 : Rat) / ((truncate ds mq).length : Rat))
    rcases Nat.eq_zero_or_pos (truncate ds mq).length with h | h
    · simp [h]
    · have h0 : ¬ (truncate ds mq).length = 0 := by omega
      rw [if_pos h, if_neg h0]
  · show (if (truncate [] mq).length > 0
        then ((evalLoop ga 0 (truncate [] mq)).2 : Rat) / ((truncate [] mq).length : Rat)
        else 0) = 0
    rw [truncate_nil]
    rfl

/-- C9 counterexample: `max_questions = 0` does not bound the work — over a
1-item dataset the pipeline processes 1 question, not `min 0 1 = 0`,
because `if max_questions:` treats 0 as falsy and skips truncation. -/
theorem max_questions_zero_not_truncating :
    ¬ ((evaluate_dataset constAnswerA "LocalBaselineRAG" [] [⟨"q", "A"⟩]
          "grade_10" none (some 0)).1.total_questions
        = min 0 ([(⟨"q", "A"⟩ : QAItem)]).length) := by
  intro hcontra
  have h : (evaluate_dataset constAnswerA "LocalBaselineRAG" [] [⟨"q", "A"⟩]
      "grade_10" none (some 0)).1.total_questions = 1 := rfl
  rw [h] at hcontra
  exact absurd hcontra (by decide)

/-- C9 amended: for every positive `max_questions = m` the pipeline truncates
the dataset before the run and processes exactly the first `min m n` items;
`m = 0` is treated like `None` by Python truthiness, so truncation is
skipped and all `n` items are processed. -/
theorem max_questions_truncation
    (ga : String → Except String String) (name : String) (res₀ : List ResultRecord)
    (ds : List QAItem) (g : String) (s : Option String) (m : Nat) :
    (evaluate_dataset ga name res₀ ds g s (some m)).1.total_questions
      = (if m = 0 then ds.length else min m ds.length)
    ∧ truncate ds (some m) = (if m = 0 then ds else ds.take m)
    ∧ truncate ds none = ds := by
  refine ⟨?_, rfl, rfl⟩
  show (truncate ds (some m)).length = _
  by_cases h : m = 0
  · simp [truncate, h]
  · simp [truncate, h, List.length_take]

end MultipleChoiceEvaluationPipeline

/-- C4: constructing the Baseline or Sub-Question backend never succeeds —
`LocalRAG.__init__` runs `super().__init__()` (which calls
`get_query_engine`) before assigning `self.storage_dir`/`self.data_dir`, and
`LocalSubQuestionRAG.get_query_engine` reads the not-yet-assigned
`self.query_engine`; both constructors raise `AttributeError` for every
storage and data directory. Had the attributes been assigned first (as the
sibling `LocalReRankRAG.__init__` does), `get_query_engine` would succeed,
loading the index when the storage directory exists and building it
otherwise. -/
theorem backend_construction_raises {Engine : Type}
    (path_exists : String → Bool) (load_index build_index : String → Engine)
    (mk_sub : Engine → Engine) (storage_dir data_dir : String) :
    LocalRAG.construct path_exists load_index build_index storage_dir data_dir
      = .error "'LocalRAG' object has no attribute 'storage_dir'"
    ∧ LocalSubQuestionRAG.construct mk_sub storage_dir data_dir
      = (.error "'LocalSubQuestionRAG' object has no attribute 'query_engine'"
          : Except String (LocalRAGObj (Option Engine)))
    ∧ LocalRAG.get_query_engine
        { storage_dir := some storage_dir, data_dir := some data_dir }
        path_exists load_index build_index
      = .ok (if path_exists storage_dir then load_index storage_dir
             else build_index data_dir) := by
  refine ⟨rfl, rfl, ?_⟩
  by_cases h : path_exists storage_dir = true
  · simp [LocalRAG.get_query_engine, h]
  · simp [LocalRAG.get_query_engine, h]

/-- C8: the Multiple-Choice Wrapper's `get_answer` is exactly the underlying
backend's `get_answer` applied to the constrained-instruction prompt that
embeds the question between the fixed instruction ("answer the following
multiple-choice question with one of A, B, C, D") and the fixed "Đáp án:"
suffix; nothing else happens at the boundary. -/
theorem wrapper_is_prompt_transform
    (rag_get_answer : String → Except String String) (question : String) :
    MultipleChoiceWrapper.get_answer rag_get_answer question
      = rag_get_answer
          ("\n            Hãy chỉ trả lời câu hỏi Multiple choice sau bằng một trong các đáp án A, B, C, D.   \n            Câu hỏi: "
            ++ question ++ "\n            Đáp án:\n        ")
    ∧ MultipleChoiceWrapper.get_answer rag_get_answer question
      = rag_get_answer (MultipleChoiceWrapper.wrapPrompt question) :=
  ⟨rfl, rfl⟩

/-- C10: `load_eval_dataset` ignores its `dataset_path` argument — for every
filesystem, grade and subject, any two paths read the same hard-coded
per-grade/per-subject file and return the same dataset. -/
theorem load_eval_dataset_ignores_path
    (fs : String → Except String (List QAItem)) (p₁ p₂ grade subject : String) :
    UtilsEval.load_eval_dataset fs p₁ grade subject
      = UtilsEval.load_eval_dataset fs p₂ grade subject
    ∧ UtilsEval.load_eval_dataset fs p₁ grade subject
      = fs ("src/eval/data/" ++ grade ++ "/" ++ subject ++ "/dataset.json") :=
  ⟨rfl, rfl⟩

end RAGTextBook
